import Mathlib

/-!
Verification of the ordhook service orchestrator (components/ordhook-cli).

The development shallowly embeds the core of `src/service/mod.rs` and
`src/config/mod.rs`:

* the Block Pre-Processor loop (the thread spawned in `Service::run` that
  consumes `HandleBlock` commands, mutates the index databases and forwards
  processed batches downstream);
* `Service::update_state` (the catch-up loop driven by
  `should_sync_ordhook_db` and `download_and_pipeline_blocks`);
* the lifecycle event loop of `Service::run` (reactions to
  `ObserverEvent::PredicateRegistered/Enabled/Deregistered/Terminate`)
  together with the Redis-backed predicate store helpers
  (`update_predicate_spec`, `update_predicate_status`,
  `retrieve_predicate_status`);
* `create_and_consolidate_chainhook_config_with_predicates`;
* `Config::from_config_file`.

External collaborators (the indexing engine, redis, the chainhook SDK) are
modelled as oracle fields of environment structures; the control flow of the
embedded functions follows the Rust source.  Observable interactions with
collaborators are recorded as effect traces.
-/

/-- A bitcoin block identifier (`block.block_identifier`); only the height
(`index`) is consumed by the embedded code. -/
structure BlockIdentifier where
  index : Nat
  deriving DecidableEq, Repr

/-- A standardized bitcoin block.  The embedded code never inspects the body
of a block, it only threads it through external operations that may mutate it
in place; `payload` stands for that mutable content. -/
structure BitcoinBlockData where
  block_identifier : BlockIdentifier
  payload : Nat
  deriving DecidableEq, Repr

/-- Commands consumed by the Block Pre-Processor (`HandleBlock` in
chainhook_sdk). -/
inductive HandleBlock where
  | UndoBlocks (blocks : List BitcoinBlockData)
  | ApplyBlocks (blocks : List BitcoinBlockData)
  deriving DecidableEq, Repr

/-- Outcomes of the external operations invoked while handling one command.
`open_readwrite_ok` models `open_readwrite_ordhook_dbs` (handles are reopened
per command), `open_readonly_ok` models `open_readonly_ordhook_db_conn` (used
to build the sequence cursor), `compress_ok` models
`LazyBlock::from_standardized_block`, `revert_ok` models
`revert_ordhook_db_with_augmented_bitcoin_block`.  `parse_payload` gives the
in-place mutation of a block performed by
`parse_inscriptions_in_standardized_block`, and `process_payload` the per-block
in-place mutation performed by the batch sequencing pass `process_blocks`
(modelled from the spec: the sequencing pass returns the same blocks, by
identity, possibly mutated in place). -/
structure PreprocessorEnv where
  open_readwrite_ok : Bool
  open_readonly_ok : Bool
  compress_ok : BitcoinBlockData → Bool
  revert_ok : BitcoinBlockData → Bool
  parse_payload : BitcoinBlockData → Nat
  process_payload : BitcoinBlockData → Nat

/-- Observable interactions of the Block Pre-Processor with its
collaborators, in program order. -/
inductive PreEffect where
  | openReadwriteFailed
  | revertBlock (b : BitcoinBlockData) (ok : Bool)
  | insertRaw (key : Nat)
  | flushBlocksDb
  | parseBlock (b : BitcoinBlockData)
  | openCursorAtTip
  | runProcessBlocks (bs : List BitcoinBlockData)
  | threadAbort
  | sendBatch (bs : List BitcoinBlockData)
  deriving DecidableEq, Repr

/-- Body of the per-block loop of the `HandleBlock::ApplyBlocks` arm: compress
the block (`LazyBlock::from_standardized_block`); on failure log and
`continue` (no store entry, no extraction); on success insert the compressed
payload keyed by `block_identifier.index as u32`, flush, and run inscription
extraction in place on the block. -/
def apply_block_step (env : PreprocessorEnv) (b : BitcoinBlockData) :
    List PreEffect × BitcoinBlockData :=
  if env.compress_ok b then
    ([PreEffect.insertRaw (b.block_identifier.index % 2 ^ 32),
      PreEffect.flushBlocksDb, PreEffect.parseBlock b],
     { b with payload := env.parse_payload b })
  else
    ([], b)

/-- The per-block loop of the `ApplyBlocks` arm over the whole batch,
returning the effect trace and the (in-place mutated) batch. -/
def apply_blocks_loop (env : PreprocessorEnv) :
    List BitcoinBlockData → List PreEffect × List BitcoinBlockData
  | [] => ([], [])
  | b :: rest =>
    let s := apply_block_step env b
    let r := apply_blocks_loop env rest
    (s.1 ++ r.1, s.2 :: r.2)

/-- Modelled from the spec: `process_blocks` (the sequencing/indexing pass,
defined in `core/pipeline/processors/inscription_indexing`, outside the
excerpt) returns the same blocks, by identity, possibly mutated in place. -/
def process_blocks (env : PreprocessorEnv) (bs : List BitcoinBlockData) :
    List BitcoinBlockData :=
  bs.map fun b => { b with payload := env.process_payload b }

/-- One iteration of the Block Pre-Processor loop on a received command
(`Service::run`, "Block pre-processor" thread).  Returns the effect trace of
the iteration and whether the thread survives it (the `.expect` on the
read-only connection panics the thread). -/
def handle_command (env : PreprocessorEnv) (cmd : HandleBlock) :
    List PreEffect × Bool :=
  if env.open_readwrite_ok then
    match cmd with
    | HandleBlock.UndoBlocks blocks =>
      ((blocks.map fun b => PreEffect.revertBlock b (env.revert_ok b)) ++
        [PreEffect.sendBatch blocks], true)
    | HandleBlock.ApplyBlocks blocks =>
      let r := apply_blocks_loop env blocks
      if env.open_readonly_ok then
        (r.1 ++ [PreEffect.openCursorAtTip,
                 PreEffect.runProcessBlocks r.2,
                 PreEffect.sendBatch (process_blocks env r.2)], true)
      else
        (r.1 ++ [PreEffect.threadAbort], false)
  else
    ([PreEffect.openReadwriteFailed], true)

/-- The Block Pre-Processor loop over a sequence of commands; `env i` gives
the external outcomes for the i-th command (the database handles are reopened
for every command).  The loop stops early only when an iteration panics. -/
def run_preprocessor (env : Nat → PreprocessorEnv) :
    Nat → List HandleBlock → List PreEffect
  | _, [] => []
  | i, cmd :: rest =>
    let r := handle_command (env i) cmd
    if r.2 then r.1 ++ run_preprocessor env (i + 1) rest else r.1

/-- The whole Block Pre-Processor run starting at the first command. -/
def block_pre_processor (env : Nat → PreprocessorEnv)
    (cmds : List HandleBlock) : List PreEffect :=
  run_preprocessor env 0 cmds

/-- Is an effect a send on the processed-blocks output channel? -/
def is_send : PreEffect → Bool
  | PreEffect.sendBatch _ => true
  | _ => false

/-- Number of acknowledgments (batches sent downstream) in a trace. -/
def count_sends (tr : List PreEffect) : Nat :=
  (tr.filter is_send).length

/-- The batches sent downstream, in order. -/
def sent_batches (tr : List PreEffect) : List (List BitcoinBlockData) :=
  tr.filterMap fun e =>
    match e with
    | PreEffect.sendBatch bs => some bs
    | _ => none

/-- The blocks on which a rollback was attempted, in order. -/
def revert_targets (tr : List PreEffect) : List BitcoinBlockData :=
  tr.filterMap fun e =>
    match e with
    | PreEffect.revertBlock b _ => some b
    | _ => none

/-- Is an effect one of the per-block persist-and-extract effects? -/
def is_per_block_effect : PreEffect → Bool
  | PreEffect.insertRaw _ => true
  | PreEffect.flushBlocksDb => true
  | PreEffect.parseBlock _ => true
  | _ => false

/-- Is an effect an invocation of the sequencing pass? -/
def is_seq_pass : PreEffect → Bool
  | PreEffect.runProcessBlocks _ => true
  | _ => false

/-- Is an effect an inscription-extraction attempt? -/
def is_parse_effect : PreEffect → Bool
  | PreEffect.parseBlock _ => true
  | _ => false

/-!  `Service::update_state`: the catch-up loop. -/

/-- External outcomes driving `Service::update_state`: `should_sync` gives
the answer of the k-th consultation of `should_sync_ordhook_db` (an error, no
remaining gap, or a `(start_block, end_block, speed)` range), and `pipeline`
the result of the k-th `download_and_pipeline_blocks` call. -/
structure SyncEnv where
  should_sync : Nat → Except String (Option (Nat × Nat × Nat))
  pipeline : Nat → Nat × Nat × Nat → Except String Unit

/-- Observable interactions of `update_state`, in program order. -/
inductive SyncEffect where
  | consultPolicy (k : Nat)
  | startIndexingProcessor
  | pipelineCall (start_block end_block speed : Nat)
  deriving DecidableEq, Repr

/-- The `while let Some((start_block, end_block, speed)) = should_sync(..)?`
loop of `Service::update_state`, with the consultation counter `k` made
explicit and a fuel bound (the Rust loop has no intrinsic bound).  Returns
the effect trace and, when the loop settles within the fuel, its result:
`Except.ok ()` once the policy reports no gap, the first policy or pipeline
error otherwise. -/
def update_state_loop (env : SyncEnv) :
    Nat → Nat → List SyncEffect × Option (Except String Unit)
  | 0, _ => ([], none)
  | fuel + 1, k =>
    match env.should_sync k with
    | Except.error e => ([SyncEffect.consultPolicy k], some (Except.error e))
    | Except.ok none => ([SyncEffect.consultPolicy k], some (Except.ok ()))
    | Except.ok (some rng) =>
      match env.pipeline k rng with
      | Except.error e =>
        ([SyncEffect.consultPolicy k, SyncEffect.startIndexingProcessor,
          SyncEffect.pipelineCall rng.1 rng.2.1 rng.2.2], some (Except.error e))
      | Except.ok _ =>
        let r := update_state_loop env fuel (k + 1)
        (SyncEffect.consultPolicy k :: SyncEffect.startIndexingProcessor ::
          SyncEffect.pipelineCall rng.1 rng.2.1 rng.2.2 :: r.1, r.2)

/-- `Service::update_state`, starting at the first policy consultation. -/
def update_state (env : SyncEnv) (fuel : Nat) :
    List SyncEffect × Option (Except String Unit) :=
  update_state_loop env fuel 0

/-!  The predicate lifecycle event loop and the Redis-backed store. -/

/-- Data carried by `PredicateStatus::Scanning`. -/
structure ScanningData where
  number_of_blocks_to_scan : Nat
  number_of_blocks_scanned : Nat
  number_of_blocks_sent : Nat
  current_block_height : Nat
  deriving DecidableEq, Repr

/-- Data carried by `PredicateStatus::Streaming`. -/
structure StreamingData where
  last_occurence : Nat
  last_evaluation : Nat
  deriving DecidableEq, Repr

/-- The predicate status state machine (`PredicateStatus` in
`service/mod.rs`). -/
inductive PredicateStatus where
  | Scanning (d : ScanningData)
  | Streaming (d : StreamingData)
  | InitialScanCompleted
  | Interrupted (reason : String)
  | Disabled
  deriving DecidableEq, Repr

/-- A bitcoin predicate specification (chainhook_sdk); only its identity is
relevant to the embedded control flow. -/
structure BitcoinChainhookSpecification where
  uuid : String
  enabled : Bool
  deriving DecidableEq, Repr

/-- A stacks predicate specification (chainhook_sdk). -/
structure StacksChainhookSpecification where
  uuid : String
  deriving DecidableEq, Repr

/-- `ChainhookSpecification` (chainhook_sdk): the chain-scope tagged
specification carried by lifecycle events. -/
inductive ChainhookSpecification where
  | Stacks (spec : StacksChainhookSpecification)
  | Bitcoin (spec : BitcoinChainhookSpecification)
  deriving DecidableEq, Repr

/-- The lifecycle events consumed by the run loop (`ObserverEvent` in
chainhook_sdk); `Other` stands for every variant handled by the `_ => {}`
arm. -/
inductive ObserverEvent where
  | PredicateRegistered (spec : ChainhookSpecification)
  | PredicateEnabled (spec : ChainhookSpecification)
  | PredicateDeregistered (spec : ChainhookSpecification)
  | Terminate
  | Other
  deriving DecidableEq, Repr

/-- One record of the predicate store: a Redis hash with the two named fields
written by the service. -/
structure PredicateRecord where
  status : Option PredicateStatus
  specification : Option ChainhookSpecification
  deriving DecidableEq, Repr

/-- The persisted predicate store: one optional record per key (a missing
key is an absent record, as after `DEL`). -/
def PredicateStore := String → Option PredicateRecord

/-- `HSET key "specification" spec`: creates the hash when absent, replaces
only that field otherwise. -/
def hset_specification (key : String) (spec : ChainhookSpecification)
    (store : PredicateStore) : PredicateStore :=
  fun k =>
    if k = key then
      some { status := (store key).bind PredicateRecord.status,
             specification := some spec }
    else store k

/-- `HSET key "status" status`. -/
def hset_status (key : String) (st : PredicateStatus)
    (store : PredicateStore) : PredicateStore :=
  fun k =>
    if k = key then
      some { status := some st,
             specification := (store key).bind PredicateRecord.specification }
    else store k

/-- `DEL key`. -/
def del_key (key : String) (store : PredicateStore) : PredicateStore :=
  fun k => if k = key then none else store k

/-- `retrieve_predicate_status`: `HGET key "status"` then deserialize; a
missing key, a missing field or a malformed payload all yield `none` (the
store holds deserialized values, so the payload is well formed exactly when
the field is present). -/
def retrieve_predicate_status (predicate_key : String)
    (store : PredicateStore) : Option PredicateStatus :=
  match store predicate_key with
  | none => none
  | some r => r.status

/-- External outcomes driving the handling of one lifecycle event:
`http_api_on` is `PredicatesApi::On` (the persisted-predicate feature),
`conn_ok` the outcome of `open_readwrite_predicates_db_conn`,
`hset_spec_ok` / `hset_status_ok` / `del_ok` the outcomes of the individual
Redis commands, and `key` the chainhook_sdk `ChainhookSpecification::key`
function. -/
structure LifecycleEnv where
  http_api_on : Bool
  conn_ok : Bool
  hset_spec_ok : Bool
  hset_status_ok : Bool
  del_ok : Bool
  key : ChainhookSpecification → String

/-- Observable interactions of the lifecycle loop with its collaborators.
Write effects record the attempted Redis command and whether it succeeded
(a failure is logged and not retried). -/
inductive LifeEffect where
  | openStoreConnFailed
  | storeWriteSpec (key : String) (spec : ChainhookSpecification) (ok : Bool)
  | storeWriteStatus (key : String) (st : PredicateStatus) (ok : Bool)
  | storeDelete (key : String) (ok : Bool)
  | scanEnqueue (spec : BitcoinChainhookSpecification)
  deriving DecidableEq, Repr

/-- `update_predicate_spec` applied to a store: the `HSET` either succeeds or
is logged and ignored. -/
def update_predicate_spec (key : String) (spec : ChainhookSpecification)
    (ok : Bool) (store : PredicateStore) : PredicateStore :=
  if ok then hset_specification key spec store else store

/-- `update_predicate_status` applied to a store. -/
def update_predicate_status (key : String) (st : PredicateStatus)
    (ok : Bool) (store : PredicateStore) : PredicateStore :=
  if ok then hset_status key st store else store

/-- Handling of one lifecycle event by the run loop of `Service::run`.
Returns the effect trace, the resulting store, and whether the loop
continues (`false` only for `Terminate`). -/
def handle_observer_event (env : LifecycleEnv) (store : PredicateStore) :
    ObserverEvent → List LifeEffect × PredicateStore × Bool
  | ObserverEvent.PredicateRegistered spec =>
    if env.http_api_on then
      if env.conn_ok then
        let k := env.key spec
        let store1 := update_predicate_spec k spec env.hset_spec_ok store
        let store2 :=
          update_predicate_status k PredicateStatus.Disabled
            env.hset_status_ok store1
        let effs :=
          [LifeEffect.storeWriteSpec k spec env.hset_spec_ok,
           LifeEffect.storeWriteStatus k PredicateStatus.Disabled
             env.hset_status_ok]
        match spec with
        | ChainhookSpecification.Stacks _ => (effs, store2, true)
        | ChainhookSpecification.Bitcoin p =>
          (effs ++ [LifeEffect.scanEnqueue p], store2, true)
      else
        ([LifeEffect.openStoreConnFailed], store, true)
    else
      match spec with
      | ChainhookSpecification.Stacks _ => ([], store, true)
      | ChainhookSpecification.Bitcoin p =>
        ([LifeEffect.scanEnqueue p], store, true)
  | ObserverEvent.PredicateEnabled spec =>
    if env.http_api_on then
      if env.conn_ok then
        let k := env.key spec
        let store1 := update_predicate_spec k spec env.hset_spec_ok store
        let store2 :=
          update_predicate_status k PredicateStatus.InitialScanCompleted
            env.hset_status_ok store1
        ([LifeEffect.storeWriteSpec k spec env.hset_spec_ok,
          LifeEffect.storeWriteStatus k PredicateStatus.InitialScanCompleted
            env.hset_status_ok], store2, true)
      else
        ([LifeEffect.openStoreConnFailed], store, true)
    else
      ([], store, true)
  | ObserverEvent.PredicateDeregistered spec =>
    if env.http_api_on then
      if env.conn_ok then
        let k := env.key spec
        if env.del_ok then
          ([LifeEffect.storeDelete k true], del_key k store, true)
        else
          ([LifeEffect.storeDelete k false], store, true)
      else
        ([LifeEffect.openStoreConnFailed], store, true)
    else
      ([], store, true)
  | ObserverEvent.Terminate => ([], store, false)
  | ObserverEvent.Other => ([], store, true)

/-- The bitcoin specifications pushed onto the scan-dispatch queue by a
trace, in order. -/
def enqueued_specs (tr : List LifeEffect) :
    List BitcoinChainhookSpecification :=
  tr.filterMap fun e =>
    match e with
    | LifeEffect.scanEnqueue p => some p
    | _ => none

/-- Number of store-delete attempts in a trace. -/
def count_deletes (tr : List LifeEffect) : Nat :=
  (tr.filterMap fun e =>
    match e with
    | LifeEffect.storeDelete k ok => some (k, ok)
    | _ => none).length

/-!  `Config` and `Config::from_config_file` (`src/config/mod.rs`). -/

/-- `StacksNetwork` (chainhook_sdk). -/
inductive StacksNetwork where
  | Devnet
  | Testnet
  | Mainnet
  deriving DecidableEq, Repr

/-- `BitcoinNetwork` (chainhook_sdk). -/
inductive BitcoinNetwork where
  | Regtest
  | Testnet
  | Mainnet
  deriving DecidableEq, Repr

/-- `StacksNodeConfig::default_localhost(port)` (chainhook_sdk); only the
port fed to it is relevant here. -/
structure StacksNodeConfig where
  ingestion_port : Nat
  deriving DecidableEq, Repr

/-- `BitcoinBlockSignaling` (chainhook_sdk). -/
inductive BitcoinBlockSignaling where
  | ZeroMQ (url : String)
  | Stacks (cfg : StacksNodeConfig)
  deriving DecidableEq, Repr

/-- `StorageConfig`. -/
structure StorageConfig where
  working_dir : String
  deriving DecidableEq, Repr

/-- `PredicatesApiConfig`. -/
structure PredicatesApiConfig where
  http_port : Nat
  database_uri : String
  display_logs : Bool
  deriving DecidableEq, Repr

/-- `PredicatesApi`. -/
inductive PredicatesApi where
  | Off
  | On (cfg : PredicatesApiConfig)
  deriving DecidableEq, Repr

/-- `BootstrapConfig`. -/
inductive BootstrapConfig where
  | Build
  | Download (url : String)
  deriving DecidableEq, Repr

/-- `LimitsConfig`. -/
structure LimitsConfig where
  max_number_of_bitcoin_predicates : Nat
  max_number_of_concurrent_bitcoin_scans : Nat
  max_number_of_stacks_predicates : Nat
  max_number_of_concurrent_stacks_scans : Nat
  max_number_of_processing_threads : Nat
  bitcoin_concurrent_http_requests_max : Nat
  max_caching_memory_size_mb : Nat
  deriving DecidableEq, Repr

/-- `IndexerConfig` (chainhook_sdk), with the fields populated by
`from_config_file`. -/
structure IndexerConfig where
  bitcoind_rpc_url : String
  bitcoind_rpc_username : String
  bitcoind_rpc_password : String
  bitcoin_block_signaling : BitcoinBlockSignaling
  stacks_network : StacksNetwork
  bitcoin_network : BitcoinNetwork
  deriving DecidableEq, Repr

/-- `LogConfig`. -/
structure LogConfig where
  ordinals_internals : Bool
  chainhook_internals : Bool
  deriving DecidableEq, Repr

/-- `Config`. -/
structure Config where
  storage : StorageConfig
  http_api : PredicatesApi
  limits : LimitsConfig
  network : IndexerConfig
  bootstrap : BootstrapConfig
  logs : LogConfig
  deriving DecidableEq, Repr

/-- `Config::is_http_api_enabled`. -/
def Config.is_http_api_enabled (c : Config) : Bool :=
  match c.http_api with
  | PredicatesApi.Off => false
  | PredicatesApi.On _ => true

/-- The `[network]` section of a parsed config file, with the field shapes
used by `Config::from_config_file`. -/
structure ConfigFileNetwork where
  mode : String
  bitcoind_rpc_url : String
  bitcoind_rpc_username : String
  bitcoind_rpc_password : String
  bitcoind_zmq_url : Option String
  stacks_events_ingestion_port : Option Nat
  deriving DecidableEq, Repr

/-- The `[storage]` section of a parsed config file. -/
structure ConfigFileStorage where
  working_dir : Option String
  deriving DecidableEq, Repr

/-- The `[http_api]` section of a parsed config file. -/
structure ConfigFileHttpApi where
  http_port : Option Nat
  database_uri : Option String
  display_logs : Option Bool
  disabled : Option Bool
  deriving DecidableEq, Repr

/-- The `[bootstrap]` section of a parsed config file. -/
structure ConfigFileBootstrap where
  download_url : Option String
  deriving DecidableEq, Repr

/-- The `[limits]` section of a parsed config file. -/
structure ConfigFileLimits where
  max_number_of_bitcoin_predicates : Option Nat
  max_number_of_concurrent_bitcoin_scans : Option Nat
  max_number_of_stacks_predicates : Option Nat
  max_number_of_concurrent_stacks_scans : Option Nat
  max_number_of_processing_threads : Option Nat
  bitcoin_concurrent_http_requests_max : Option Nat
  max_caching_memory_size_mb : Option Nat
  deriving DecidableEq, Repr

/-- The `[logs]` section of a parsed config file. -/
structure ConfigFileLogs where
  ordinals_internals : Option Bool
  chainhook_internals : Option Bool
  deriving DecidableEq, Repr

/-- `ConfigFile`: a parsed config file, as consumed by
`Config::from_config_file`. -/
structure ConfigFile where
  storage : ConfigFileStorage
  http_api : Option ConfigFileHttpApi
  limits : ConfigFileLimits
  network : ConfigFileNetwork
  bootstrap : Option ConfigFileBootstrap
  logs : Option ConfigFileLogs
  deriving DecidableEq, Repr

/-- `DEFAULT_CONTROL_PORT`. -/
def DEFAULT_CONTROL_PORT : Nat := 20456

/-- `DEFAULT_INGESTION_PORT`. -/
def DEFAULT_INGESTION_PORT : Nat := 20455

/-- `DEFAULT_REDIS_URI`. -/
def DEFAULT_REDIS_URI : String := "redis://localhost:6379/"

/-- `BITCOIN_MAX_PREDICATE_REGISTRATION` and the other static pool bounds. -/
def STACKS_SCAN_THREAD_POOL_SIZE : Nat := 10

def BITCOIN_SCAN_THREAD_POOL_SIZE : Nat := 10

def STACKS_MAX_PREDICATE_REGISTRATION : Nat := 50

def BITCOIN_MAX_PREDICATE_REGISTRATION : Nat := 50

/-- The `match config_file.network.mode.as_str()` head of
`Config::from_config_file`. -/
def mode_networks : String → Option (StacksNetwork × BitcoinNetwork) :=
  fun mode =>
    if mode = "devnet" then some (StacksNetwork.Devnet, BitcoinNetwork.Regtest)
    else if mode = "testnet" then
      some (StacksNetwork.Testnet, BitcoinNetwork.Testnet)
    else if mode = "mainnet" then
      some (StacksNetwork.Mainnet, BitcoinNetwork.Mainnet)
    else none

/-- `Config::from_config_file`; `num_cpus` abstracts the ambient
`num_cpus::get()`. -/
def Config.from_config_file (num_cpus : Nat) (config_file : ConfigFile) :
    Except String Config :=
  match mode_networks config_file.network.mode with
  | none => Except.error "network.mode not supported"
  | some (stacks_network, bitcoin_network) =>
    let bootstrap :=
      match config_file.bootstrap with
      | some b =>
        match b.download_url with
        | some url => BootstrapConfig.Download url
        | none => BootstrapConfig.Build
      | none => BootstrapConfig.Build
    Except.ok
      { storage :=
          { working_dir := config_file.storage.working_dir.getD "ordhook" },
        http_api :=
          match config_file.http_api with
          | none => PredicatesApi.Off
          | some http_api =>
            match http_api.disabled with
            | some false => PredicatesApi.Off
            | _ =>
              PredicatesApi.On
                { http_port := http_api.http_port.getD DEFAULT_CONTROL_PORT,
                  display_logs := http_api.display_logs.getD true,
                  database_uri := http_api.database_uri.getD DEFAULT_REDIS_URI },
        bootstrap := bootstrap,
        limits :=
          { max_number_of_stacks_predicates :=
              config_file.limits.max_number_of_stacks_predicates.getD
                STACKS_MAX_PREDICATE_REGISTRATION,
            max_number_of_bitcoin_predicates :=
              config_file.limits.max_number_of_bitcoin_predicates.getD
                BITCOIN_MAX_PREDICATE_REGISTRATION,
            max_number_of_concurrent_stacks_scans :=
              config_file.limits.max_number_of_concurrent_stacks_scans.getD
                STACKS_SCAN_THREAD_POOL_SIZE,
            max_number_of_concurrent_bitcoin_scans :=
              config_file.limits.max_number_of_concurrent_bitcoin_scans.getD
                BITCOIN_SCAN_THREAD_POOL_SIZE,
            max_number_of_processing_threads :=
              config_file.limits.max_number_of_processing_threads.getD
                (Nat.max 1 (num_cpus - 1)),
            bitcoin_concurrent_http_requests_max :=
              config_file.limits.bitcoin_concurrent_http_requests_max.getD
                (Nat.max 1 (num_cpus - 1)),
            max_caching_memory_size_mb :=
              config_file.limits.max_caching_memory_size_mb.getD 2048 },
        network :=
          { bitcoind_rpc_url := config_file.network.bitcoind_rpc_url,
            bitcoind_rpc_username := config_file.network.bitcoind_rpc_username,
            bitcoind_rpc_password := config_file.network.bitcoind_rpc_password,
            bitcoin_block_signaling :=
              match config_file.network.bitcoind_zmq_url with
              | some zmq_url => BitcoinBlockSignaling.ZeroMQ zmq_url
              | none =>
                BitcoinBlockSignaling.Stacks
                  { ingestion_port :=
                      config_file.network.stacks_events_ingestion_port.getD
                        DEFAULT_INGESTION_PORT },
            stacks_network := stacks_network,
            bitcoin_network := bitcoin_network },
        logs :=
          { ordinals_internals :=
              (config_file.logs.bind ConfigFileLogs.ordinals_internals).getD
                true,
            chainhook_internals :=
              (config_file.logs.bind ConfigFileLogs.chainhook_internals).getD
                true } }

/-!  `create_and_consolidate_chainhook_config_with_predicates`. -/

/-- A launch-supplied `ChainhookFullSpecification` (chainhook_sdk); opaque to
the embedded control flow. -/
structure ChainhookFullSpecification where
  uuid : String
  deriving DecidableEq, Repr

/-- External outcomes driving the consolidation:
`load_predicates_from_redis` is the `service::http_api` loader (its outcome
is the loaded (spec, status) list or an error), `register_specification` and
`register_full_specification` are the chainhook_sdk registration calls (the
latter validates against the supplied network pair and yields the registered
specification on success). -/
structure ConsolidateEnv where
  load_predicates_from_redis :
    Except String (List (ChainhookSpecification × PredicateStatus))
  register_specification : ChainhookSpecification → Except String Unit
  register_full_specification :
    BitcoinNetwork × StacksNetwork → ChainhookFullSpecification →
      Except String ChainhookSpecification

/-- `create_and_consolidate_chainhook_config_with_predicates`.  The
consolidated `ChainhookConfig` registry is modelled as the list of
successfully registered specifications; the second component records whether
the persisted store was consulted. -/
def create_and_consolidate_chainhook_config_with_predicates
    (env : ConsolidateEnv) (predicates : List ChainhookFullSpecification)
    (config : Config) : List ChainhookSpecification × Bool :=
  let (reg0, loaded) :=
    if predicates.isEmpty && config.is_http_api_enabled then
      let registered_predicates :=
        match env.load_predicates_from_redis with
        | Except.ok ps => ps
        | Except.error _ => []
      (registered_predicates.foldl
        (fun acc ps =>
          match env.register_specification ps.1 with
          | Except.ok _ => acc ++ [ps.1]
          | Except.error _ => acc) [], true)
    else ([], false)
  let reg1 :=
    predicates.foldl
      (fun acc predicate =>
        match
          env.register_full_specification
            (config.network.bitcoin_network, config.network.stacks_network)
            predicate
        with
        | Except.ok spec => acc ++ [spec]
        | Except.error _ => acc) reg0
  (reg1, loaded)

/-!  Helper lemmas about the Block Pre-Processor traces. -/

theorem count_sends_append (t1 t2 : List PreEffect) :
    count_sends (t1 ++ t2) = count_sends t1 + count_sends t2 := by
  simp [count_sends, List.filter_append]

theorem apply_block_step_no_send (env : PreprocessorEnv)
    (b : BitcoinBlockData) : count_sends (apply_block_step env b).1 = 0 := by
  cases h : env.compress_ok b <;>
    simp [apply_block_step, h, count_sends, is_send]

theorem apply_blocks_loop_no_send (env : PreprocessorEnv)
    (bs : List BitcoinBlockData) :
    count_sends (apply_blocks_loop env bs).1 = 0 := by
  induction bs with
  | nil => rfl
  | cons b rest ih =>
    simp [apply_blocks_loop, count_sends_append, apply_block_step_no_send, ih]

theorem count_sends_revert_map (env : PreprocessorEnv)
    (bs : List BitcoinBlockData) :
    count_sends (bs.map fun b => PreEffect.revertBlock b (env.revert_ok b)) = 0 := by
  simp [count_sends, is_send]

theorem handle_command_ok_sends (env : PreprocessorEnv) (cmd : HandleBlock)
    (hrw : env.open_readwrite_ok = true) (hro : env.open_readonly_ok = true) :
    count_sends (handle_command env cmd).1 = 1 ∧
      (handle_command env cmd).2 = true := by
  cases cmd with
  | UndoBlocks bs =>
    refine ⟨?_, by simp [handle_command, hrw]⟩
    rw [show (handle_command env (HandleBlock.UndoBlocks bs)).1 =
        (bs.map fun b => PreEffect.revertBlock b (env.revert_ok b)) ++
          [PreEffect.sendBatch bs] by simp [handle_command, hrw]]
    rw [count_sends_append, count_sends_revert_map]
    rfl
  | ApplyBlocks bs =>
    refine ⟨?_, by simp [handle_command, hrw, hro]⟩
    rw [show (handle_command env (HandleBlock.ApplyBlocks bs)).1 =
        (apply_blocks_loop env bs).1 ++
          [PreEffect.openCursorAtTip,
           PreEffect.runProcessBlocks (apply_blocks_loop env bs).2,
           PreEffect.sendBatch (process_blocks env (apply_blocks_loop env bs).2)] by
      simp [handle_command, hrw, hro]]
    rw [count_sends_append, apply_blocks_loop_no_send]
    rfl

theorem run_preprocessor_acks (env : Nat → PreprocessorEnv) :
    ∀ (cmds : List HandleBlock) (i : Nat),
      (∀ j, j < cmds.length → (env (i + j)).open_readwrite_ok = true ∧
        (env (i + j)).open_readonly_ok = true) →
      count_sends (run_preprocessor env i cmds) = cmds.length := by
  intro cmds
  induction cmds with
  | nil => intro i _; rfl
  | cons cmd rest ih =>
    intro i h
    have h0 := h 0 (by simp)
    have hrw : (env i).open_readwrite_ok = true := by simpa using h0.1
    have hro : (env i).open_readonly_ok = true := by simpa using h0.2
    have hc := handle_command_ok_sends (env i) cmd hrw hro
    have hrest : count_sends (run_preprocessor env (i + 1) rest) = rest.length := by
      apply ih
      intro j hj
      have := h (j + 1) (by simpa using Nat.succ_lt_succ hj)
      constructor
      · have h1 := this.1
        rw [show i + (j + 1) = i + 1 + j by omega] at h1
        exact h1
      · have h2 := this.2
        rw [show i + (j + 1) = i + 1 + j by omega] at h2
        exact h2
    simp [run_preprocessor, hc.2, count_sends_append, hc.1, hrest]
    omega

/-- C1 counterexample environment: the read-write open fails for every
command. -/
def cex_c1_env : PreprocessorEnv :=
  { open_readwrite_ok := false, open_readonly_ok := true,
    compress_ok := fun _ => true, revert_ok := fun _ => true,
    parse_payload := fun b => b.payload, process_payload := fun b => b.payload }

/-- C1 counterexample: when `open_readwrite_ordhook_dbs` fails for a command,
the loop `continue`s without sending anything downstream, so a one-command
sequence yields zero acknowledgments, not one. -/
theorem preprocessor_ack_counterexample :
    count_sends (block_pre_processor (fun _ => cex_c1_env)
        [HandleBlock.UndoBlocks []]) ≠
      ([HandleBlock.UndoBlocks []] : List HandleBlock).length := by
  decide

/-- C1 (amended): for every sequence of commands, the number of
acknowledgments sent on the processed-blocks channel equals the number of
commands, provided every command's database opens succeed (the read-write
pair and, for apply commands, the read-only sequencing connection);
per-block compression or rollback failures never reduce the count.  A
command whose read-write open fails is skipped with no acknowledgment. -/
theorem preprocessor_ack_per_command (env : Nat → PreprocessorEnv)
    (cmds : List HandleBlock)
    (h : ∀ j, j < cmds.length → (env j).open_readwrite_ok = true ∧
      (env j).open_readonly_ok = true) :
    count_sends (block_pre_processor env cmds) = cmds.length := by
  have := run_preprocessor_acks env cmds 0 (by intro j hj; simpa using h j hj)
  simpa [block_pre_processor] using this

/-- C1 witness environment: opens succeed, but every per-block operation
(compression, rollback) fails. -/
def wit_c1_env : PreprocessorEnv :=
  { open_readwrite_ok := true, open_readonly_ok := true,
    compress_ok := fun _ => false, revert_ok := fun _ => false,
    parse_payload := fun b => b.payload, process_payload := fun b => b.payload }

theorem preprocessor_ack_per_command_witness :
    count_sends (block_pre_processor (fun _ => wit_c1_env)
      [HandleBlock.ApplyBlocks [⟨⟨10⟩, 0⟩],
       HandleBlock.UndoBlocks [⟨⟨10⟩, 0⟩, ⟨⟨9⟩, 0⟩]]) = 2 :=
  preprocessor_ack_per_command (fun _ => wit_c1_env) _
    (by intro j _; exact ⟨rfl, rfl⟩)

theorem revert_targets_append (t1 t2 : List PreEffect) :
    revert_targets (t1 ++ t2) = revert_targets t1 ++ revert_targets t2 := by
  simp [revert_targets]

theorem revert_targets_map (env : PreprocessorEnv)
    (bs : List BitcoinBlockData) :
    revert_targets (bs.map fun b => PreEffect.revertBlock b (env.revert_ok b)) = bs := by
  induction bs with
  | nil => rfl
  | cons b rest ih =>
    show b :: revert_targets
        (rest.map fun b2 => PreEffect.revertBlock b2 (env.revert_ok b2)) = b :: rest
    rw [ih]

theorem sent_batches_append (t1 t2 : List PreEffect) :
    sent_batches (t1 ++ t2) = sent_batches t1 ++ sent_batches t2 := by
  simp [sent_batches]

theorem sent_batches_revert_map (env : PreprocessorEnv)
    (bs : List BitcoinBlockData) :
    sent_batches (bs.map fun b => PreEffect.revertBlock b (env.revert_ok b)) = [] := by
  induction bs with
  | nil => rfl
  | cons b rest ih =>
    show sent_batches
        (rest.map fun b2 => PreEffect.revertBlock b2 (env.revert_ok b2)) = []
    exact ih

/-- C2: on `UndoBlocks`, the rollback operation is attempted on every block
of the command, in list order (first to last), for every outcome of the
individual rollbacks — a failure on one block never prevents the attempt on
the following ones — and afterwards exactly the incoming batch is forwarded
downstream. -/
theorem undo_blocks_reverts_all (env : PreprocessorEnv)
    (bs : List BitcoinBlockData) (h : env.open_readwrite_ok = true) :
    revert_targets (handle_command env (HandleBlock.UndoBlocks bs)).1 = bs ∧
    sent_batches (handle_command env (HandleBlock.UndoBlocks bs)).1 = [bs] := by
  have htr : (handle_command env (HandleBlock.UndoBlocks bs)).1 =
      (bs.map fun b => PreEffect.revertBlock b (env.revert_ok b)) ++
        [PreEffect.sendBatch bs] := by simp [handle_command, h]
  constructor
  · rw [htr, revert_targets_append, revert_targets_map]
    simp [revert_targets]
  · rw [htr, sent_batches_append, sent_batches_revert_map]
    simp [sent_batches]

/-- C2 witness environment: every rollback fails. -/
def wit_c2_env : PreprocessorEnv :=
  { open_readwrite_ok := true, open_readonly_ok := true,
    compress_ok := fun _ => true, revert_ok := fun _ => false,
    parse_payload := fun b => b.payload, process_payload := fun b => b.payload }

theorem apply_blocks_loop_mem (env : PreprocessorEnv)
    (bs : List BitcoinBlockData) (e : PreEffect) :
    e ∈ (apply_blocks_loop env bs).1 ↔
      ∃ b ∈ bs, e ∈ (apply_block_step env b).1 := by
  induction bs with
  | nil => simp [apply_blocks_loop]
  | cons b rest ih =>
    simp only [apply_blocks_loop, List.mem_append, ih, List.mem_cons]
    constructor
    · rintro (he | ⟨b2, hb2, he2⟩)
      · exact ⟨b, Or.inl rfl, he⟩
      · exact ⟨b2, Or.inr hb2, he2⟩
    · rintro ⟨b2, hb2 | hb2, he2⟩
      · exact Or.inl (hb2 ▸ he2)
      · exact Or.inr ⟨b2, hb2, he2⟩

theorem apply_block_step_mem (env : PreprocessorEnv) (b : BitcoinBlockData)
    (e : PreEffect) (he : e ∈ (apply_block_step env b).1) :
    env.compress_ok b = true ∧
      (e = PreEffect.insertRaw (b.block_identifier.index % 2 ^ 32) ∨
       e = PreEffect.flushBlocksDb ∨ e = PreEffect.parseBlock b) := by
  cases h : env.compress_ok b with
  | false => rw [apply_block_step, h] at he; simp at he
  | true =>
    rw [apply_block_step, h] at he
    refine ⟨rfl, ?_⟩
    simpa using he

theorem apply_blocks_loop_idents (env : PreprocessorEnv)
    (bs : List BitcoinBlockData) :
    ((apply_blocks_loop env bs).2).map BitcoinBlockData.block_identifier =
      bs.map BitcoinBlockData.block_identifier := by
  induction bs with
  | nil => rfl
  | cons b rest ih =>
    show (apply_block_step env b).2.block_identifier ::
        ((apply_blocks_loop env rest).2).map BitcoinBlockData.block_identifier =
      b.block_identifier :: rest.map BitcoinBlockData.block_identifier
    rw [ih]
    cases h : env.compress_ok b <;> simp [apply_block_step, h]

theorem process_blocks_idents (env : PreprocessorEnv)
    (bs : List BitcoinBlockData) :
    (process_blocks env bs).map BitcoinBlockData.block_identifier =
      bs.map BitcoinBlockData.block_identifier := by
  simp [process_blocks]

theorem apply_trace_shape (env : PreprocessorEnv)
    (bs : List BitcoinBlockData)
    (hrw : env.open_readwrite_ok = true) (hro : env.open_readonly_ok = true) :
    (handle_command env (HandleBlock.ApplyBlocks bs)).1 =
      (apply_blocks_loop env bs).1 ++
        [PreEffect.openCursorAtTip,
         PreEffect.runProcessBlocks (apply_blocks_loop env bs).2,
         PreEffect.sendBatch (process_blocks env (apply_blocks_loop env bs).2)] := by
  simp [handle_command, hrw, hro]

/-- C3 counterexample environment: compression fails for every block,
extraction would bump the payload (so an extraction attempt is visible in the
batch as well), the sequencing pass leaves payloads unchanged. -/
def cex_c3_env : PreprocessorEnv :=
  { open_readwrite_ok := true, open_readonly_ok := true,
    compress_ok := fun _ => false, revert_ok := fun _ => true,
    parse_payload := fun b => b.payload + 1,
    process_payload := fun b => b.payload }

/-- C3 counterexample: on `ApplyBlocks([block#10])` with compression failing
for block #10, the per-block `continue` skips inscription extraction along
with persistence — the trace holds no extraction attempt at all (refuting
"inscription extraction is still attempted on it"), while the batch
containing block #10 is still forwarded downstream. -/
theorem apply_compression_failure_counterexample :
    ((handle_command cex_c3_env
        (HandleBlock.ApplyBlocks [⟨⟨10⟩, 0⟩])).1.filter is_parse_effect) = [] ∧
    ((handle_command cex_c3_env
        (HandleBlock.ApplyBlocks [⟨⟨10⟩, 0⟩])).1.filter is_per_block_effect) = [] ∧
    sent_batches (handle_command cex_c3_env
        (HandleBlock.ApplyBlocks [⟨⟨10⟩, 0⟩])).1 = [[⟨⟨10⟩, 0⟩]] := by
  decide

/-- C3 (amended): for every `ApplyBlocks` command containing a block whose
compression fails, that block receives no entry in the raw-block store and
inscription extraction is skipped for it (the per-block `continue` skips both
persistence and extraction); the acknowledgment batch forwarded downstream
still contains an entry for that block — the forwarded batch carries exactly
the identifiers of the incoming command (the batch-level sequencing pass,
which this loop still runs over the whole batch, may mutate contents in
place). -/
theorem apply_compression_failure_behavior (env : PreprocessorEnv)
    (bs : List BitcoinBlockData) (b : BitcoinBlockData)
    (hrw : env.open_readwrite_ok = true) (hro : env.open_readonly_ok = true)
    (_hb : b ∈ bs) (hc : env.compress_ok b = false)
    (huniq : ∀ b2 ∈ bs,
      b2.block_identifier.index % 2 ^ 32 = b.block_identifier.index % 2 ^ 32 →
      env.compress_ok b2 = false) :
    PreEffect.insertRaw (b.block_identifier.index % 2 ^ 32) ∉
      (handle_command env (HandleBlock.ApplyBlocks bs)).1 ∧
    PreEffect.parseBlock b ∉
      (handle_command env (HandleBlock.ApplyBlocks bs)).1 ∧
    ∃ out,
      sent_batches (handle_command env (HandleBlock.ApplyBlocks bs)).1 = [out] ∧
      out.map BitcoinBlockData.block_identifier =
        bs.map BitcoinBlockData.block_identifier := by
  rw [apply_trace_shape env bs hrw hro]
  refine ⟨?_, ?_, ?_⟩
  · intro hmem
    rw [List.mem_append] at hmem
    rcases hmem with hmem | hmem
    · rw [apply_blocks_loop_mem] at hmem
      obtain ⟨b2, hb2, he2⟩ := hmem
      obtain ⟨hok, hcase⟩ := apply_block_step_mem env b2 _ he2
      rcases hcase with hcase | hcase | hcase
      · have : b2.block_identifier.index % 2 ^ 32 =
            b.block_identifier.index % 2 ^ 32 := by
          injection hcase with h1
          omega
        rw [huniq b2 hb2 this] at hok
        cases hok
      · cases hcase
      · cases hcase
    · simp at hmem
  · intro hmem
    rw [List.mem_append] at hmem
    rcases hmem with hmem | hmem
    · rw [apply_blocks_loop_mem] at hmem
      obtain ⟨b2, hb2, he2⟩ := hmem
      obtain ⟨hok, hcase⟩ := apply_block_step_mem env b2 _ he2
      rcases hcase with hcase | hcase | hcase
      · cases hcase
      · cases hcase
      · injection hcase with h1
        rw [h1] at hc
        rw [hc] at hok
        cases hok
    · simp at hmem
  · refine ⟨process_blocks env (apply_blocks_loop env bs).2, ?_, ?_⟩
    · rw [sent_batches_append]
      have h0 : sent_batches (apply_blocks_loop env bs).1 = [] := by
        rw [List.eq_nil_iff_forall_not_mem]
        intro out hout
        rw [sent_batches, List.mem_filterMap] at hout
        obtain ⟨e, he, hee⟩ := hout
        rw [apply_blocks_loop_mem] at he
        obtain ⟨b2, _, he2⟩ := he
        obtain ⟨_, hcase⟩ := apply_block_step_mem env b2 _ he2
        rcases hcase with hcase | hcase | hcase <;> rw [hcase] at hee <;>
          cases hee
      rw [h0]
      rfl
    · rw [process_blocks_idents, apply_blocks_loop_idents]

/-- C3 witness: a two-block batch where only block #10 fails compression. -/
def wit_c3_env : PreprocessorEnv :=
  { open_readwrite_ok := true, open_readonly_ok := true,
    compress_ok := fun b => decide (b.block_identifier.index ≠ 10),
    revert_ok := fun _ => true,
    parse_payload := fun b => b.payload + 1,
    process_payload := fun b => b.payload + 10 }

theorem apply_compression_failure_behavior_witness :
    PreEffect.insertRaw (10 % 2 ^ 32) ∉
      (handle_command wit_c3_env
        (HandleBlock.ApplyBlocks [⟨⟨10⟩, 0⟩, ⟨⟨11⟩, 0⟩])).1 ∧
    PreEffect.parseBlock ⟨⟨10⟩, 0⟩ ∉
      (handle_command wit_c3_env
        (HandleBlock.ApplyBlocks [⟨⟨10⟩, 0⟩, ⟨⟨11⟩, 0⟩])).1 ∧
    ∃ out,
      sent_batches (handle_command wit_c3_env
        (HandleBlock.ApplyBlocks [⟨⟨10⟩, 0⟩, ⟨⟨11⟩, 0⟩])).1 = [out] ∧
      out.map BitcoinBlockData.block_identifier =
        [⟨⟨10⟩, 0⟩, ⟨⟨11⟩, 0⟩].map BitcoinBlockData.block_identifier :=
  apply_compression_failure_behavior wit_c3_env
    [⟨⟨10⟩, 0⟩, ⟨⟨11⟩, 0⟩] ⟨⟨10⟩, 0⟩ rfl rfl (by decide) (by decide)
    (by decide)

/-- C6: on `ApplyBlocks`, the sequencing pass (`process_blocks` with a cursor
opened on the current index tip) runs exactly once, over the whole batch,
strictly after the per-block persist-and-extract loop has finished for all
blocks, and the batch it returns is exactly what is forwarded downstream. -/
theorem apply_blocks_single_sequencing_pass (env : PreprocessorEnv)
    (bs : List BitcoinBlockData)
    (hrw : env.open_readwrite_ok = true) (hro : env.open_readonly_ok = true) :
    ∃ pre,
      (handle_command env (HandleBlock.ApplyBlocks bs)).1 =
        pre ++ [PreEffect.openCursorAtTip,
                PreEffect.runProcessBlocks (apply_blocks_loop env bs).2,
                PreEffect.sendBatch (process_blocks env (apply_blocks_loop env bs).2)] ∧
      (∀ e ∈ pre, is_per_block_effect e = true) ∧
      ((apply_blocks_loop env bs).2).map BitcoinBlockData.block_identifier =
        bs.map BitcoinBlockData.block_identifier ∧
      ((handle_command env (HandleBlock.ApplyBlocks bs)).1.filter
        is_seq_pass).length = 1 := by
  refine ⟨(apply_blocks_loop env bs).1, apply_trace_shape env bs hrw hro,
    ?_, apply_blocks_loop_idents env bs, ?_⟩
  · intro e he
    rw [apply_blocks_loop_mem] at he
    obtain ⟨b2, _, he2⟩ := he
    obtain ⟨_, hcase⟩ := apply_block_step_mem env b2 _ he2
    rcases hcase with hcase | hcase | hcase <;> rw [hcase] <;> rfl
  · rw [apply_trace_shape env bs hrw hro, List.filter_append]
    have h0 : (apply_blocks_loop env bs).1.filter is_seq_pass = [] := by
      rw [List.filter_eq_nil_iff]
      intro e he
      rw [apply_blocks_loop_mem] at he
      obtain ⟨b2, _, he2⟩ := he
      obtain ⟨_, hcase⟩ := apply_block_step_mem env b2 _ he2
      rcases hcase with hcase | hcase | hcase <;> rw [hcase] <;> simp [is_seq_pass]
    rw [h0]
    rfl

/-- C6 witness environment. -/
def wit_c6_env : PreprocessorEnv :=
  { open_readwrite_ok := true, open_readonly_ok := true,
    compress_ok := fun _ => true, revert_ok := fun _ => true,
    parse_payload := fun b => b.payload + 1,
    process_payload := fun b => b.payload + 10 }

theorem apply_blocks_single_sequencing_pass_witness :
    ∃ pre,
      (handle_command wit_c6_env (HandleBlock.ApplyBlocks [⟨⟨5⟩, 0⟩])).1 =
        pre ++ [PreEffect.openCursorAtTip,
                PreEffect.runProcessBlocks
                  (apply_blocks_loop wit_c6_env [⟨⟨5⟩, 0⟩]).2,
                PreEffect.sendBatch (process_blocks wit_c6_env
                  (apply_blocks_loop wit_c6_env [⟨⟨5⟩, 0⟩]).2)] ∧
      (∀ e ∈ pre, is_per_block_effect e = true) ∧
      ((apply_blocks_loop wit_c6_env [⟨⟨5⟩, 0⟩]).2).map
          BitcoinBlockData.block_identifier =
        [⟨⟨5⟩, 0⟩].map BitcoinBlockData.block_identifier ∧
      ((handle_command wit_c6_env (HandleBlock.ApplyBlocks [⟨⟨5⟩, 0⟩])).1.filter
        is_seq_pass).length = 1 :=
  apply_blocks_single_sequencing_pass wit_c6_env [⟨⟨5⟩, 0⟩] rfl rfl

theorem undo_blocks_reverts_all_witness :
    revert_targets (handle_command wit_c2_env
        (HandleBlock.UndoBlocks [⟨⟨12⟩, 0⟩, ⟨⟨11⟩, 0⟩])).1 =
      [⟨⟨12⟩, 0⟩, ⟨⟨11⟩, 0⟩] ∧
    sent_batches (handle_command wit_c2_env
        (HandleBlock.UndoBlocks [⟨⟨12⟩, 0⟩, ⟨⟨11⟩, 0⟩])).1 =
      [[⟨⟨12⟩, 0⟩, ⟨⟨11⟩, 0⟩]] :=
  undo_blocks_reverts_all wit_c2_env [⟨⟨12⟩, 0⟩, ⟨⟨11⟩, 0⟩] rfl

/-!  `update_state` theorems (C4). -/

/-- The three effects of one successful catch-up iteration for the range
reported at consultation `k`. -/
def sync_step_trace (rng : Nat → Nat × Nat × Nat) (k : Nat) :
    List SyncEffect :=
  [SyncEffect.consultPolicy k, SyncEffect.startIndexingProcessor,
   SyncEffect.pipelineCall (rng k).1 (rng k).2.1 (rng k).2.2]

/-- The trace of `m` consecutive successful catch-up iterations starting at
consultation `k`. -/
def sync_good_trace (rng : Nat → Nat × Nat × Nat) : Nat → Nat → List SyncEffect
  | _, 0 => []
  | k, m + 1 => sync_step_trace rng k ++ sync_good_trace rng (k + 1) m


theorem update_state_loop_step_some (env : SyncEnv) (fuel k : Nat)
    (r : Nat × Nat × Nat) (h1 : env.should_sync k = Except.ok (some r))
    (h2 : env.pipeline k r = Except.ok ()) :
    update_state_loop env (fuel + 1) k =
      (SyncEffect.consultPolicy k :: SyncEffect.startIndexingProcessor ::
        SyncEffect.pipelineCall r.1 r.2.1 r.2.2 ::
          (update_state_loop env fuel (k + 1)).1,
       (update_state_loop env fuel (k + 1)).2) := by
  simp only [update_state_loop, h1, h2]

theorem update_state_loop_step_none (env : SyncEnv) (fuel k : Nat)
    (h1 : env.should_sync k = Except.ok none) :
    update_state_loop env (fuel + 1) k =
      ([SyncEffect.consultPolicy k], some (Except.ok ())) := by
  simp only [update_state_loop, h1]

theorem update_state_loop_step_pipeline_error (env : SyncEnv) (fuel k : Nat)
    (r : Nat × Nat × Nat) (e : String)
    (h1 : env.should_sync k = Except.ok (some r))
    (h2 : env.pipeline k r = Except.error e) :
    update_state_loop env (fuel + 1) k =
      ([SyncEffect.consultPolicy k, SyncEffect.startIndexingProcessor,
        SyncEffect.pipelineCall r.1 r.2.1 r.2.2], some (Except.error e)) := by
  simp only [update_state_loop, h1, h2]

theorem update_state_loop_good (env : SyncEnv) (rng : Nat → Nat × Nat × Nat) :
    ∀ (m k fuel : Nat), m ≤ fuel →
      (∀ j, j < m → env.should_sync (k + j) = Except.ok (some (rng (k + j))) ∧
        env.pipeline (k + j) (rng (k + j)) = Except.ok ()) →
      update_state_loop env fuel k =
        (sync_good_trace rng k m ++ (update_state_loop env (fuel - m) (k + m)).1,
         (update_state_loop env (fuel - m) (k + m)).2) := by
  intro m
  induction m with
  | zero =>
    intro k fuel _ _
    simp [sync_good_trace]
  | succ m ih =>
    intro k fuel hf hg
    obtain ⟨fuel2, rfl⟩ : ∃ f, fuel = f + 1 := ⟨fuel - 1, by omega⟩
    have h0 := hg 0 (Nat.succ_pos m)
    rw [Nat.add_zero] at h0
    have hrec := ih (k + 1) fuel2 (by omega)
      (by
        intro j hj
        have := hg (j + 1) (by omega)
        rw [show k + (j + 1) = k + 1 + j by omega] at this
        exact this)
    rw [update_state_loop_step_some env fuel2 k (rng k) h0.1 h0.2, hrec]
    rw [show fuel2 + 1 - (m + 1) = fuel2 - m by omega,
      show k + (m + 1) = k + 1 + m by omega]
    rw [sync_good_trace, sync_step_trace]
    simp

/-- C4: `update_state` loops while the sync policy reports a gap, producing
exactly one indexing-processor start and exactly one pipeline call per
reported `(start_block, end_block, speed)` range, in consultation order; it
returns success as soon as the policy first reports no remaining gap — the
policy is not consulted afterwards, and a first answer of "no gap" yields
zero pipeline calls — and it propagates the first pipeline error as its own
error result, ending the loop there (no further consultation, start or
call). -/
theorem update_state_catchup_spec (env : SyncEnv) (fuel n : Nat)
    (rng : Nat → Nat × Nat × Nat) (hfuel : n < fuel)
    (hgood : ∀ k, k < n → env.should_sync k = Except.ok (some (rng k)) ∧
      env.pipeline k (rng k) = Except.ok ()) :
    (env.should_sync n = Except.ok none →
      update_state env fuel =
        (sync_good_trace rng 0 n ++ [SyncEffect.consultPolicy n],
         some (Except.ok ()))) ∧
    (∀ e, env.should_sync n = Except.ok (some (rng n)) →
      env.pipeline n (rng n) = Except.error e →
      update_state env fuel =
        (sync_good_trace rng 0 n ++ sync_step_trace rng n,
         some (Except.error e))) := by
  have hauxgood : ∀ j, j < n → env.should_sync (0 + j) =
      Except.ok (some (rng (0 + j))) ∧
      env.pipeline (0 + j) (rng (0 + j)) = Except.ok () := by
    intro j hj
    rw [Nat.zero_add]
    exact hgood j hj
  have haux := update_state_loop_good env rng n 0 fuel (by omega) hauxgood
  obtain ⟨fuel2, hf2⟩ : ∃ f, fuel - n = f + 1 := ⟨fuel - n - 1, by omega⟩
  rw [Nat.zero_add] at haux
  constructor
  · intro hnone
    rw [update_state, haux, hf2,
      update_state_loop_step_none env fuel2 n hnone]
  · intro e hsome herr
    rw [update_state, haux, hf2,
      update_state_loop_step_pipeline_error env fuel2 n (rng n) e hsome herr]
    rfl

/-- C4 witness environment: the policy reports `(100, 105, 5)` once, then no
gap; the pipeline succeeds. -/
def wit_c4_env : SyncEnv :=
  { should_sync := fun k =>
      if k = 0 then Except.ok (some (100, 105, 5)) else Except.ok none,
    pipeline := fun _ _ => Except.ok () }

theorem update_state_catchup_spec_witness :
    update_state wit_c4_env 2 =
      ([SyncEffect.consultPolicy 0, SyncEffect.startIndexingProcessor,
        SyncEffect.pipelineCall 100 105 5, SyncEffect.consultPolicy 1],
       some (Except.ok ())) := by
  have H := (update_state_catchup_spec wit_c4_env 2 1
    (fun _ => (100, 105, 5)) (by omega)
    (by
      intro k hk
      have hk0 : k = 0 := by omega
      rw [hk0]
      exact ⟨rfl, rfl⟩)).1 rfl
  rw [H]
  rfl

/-!  Lifecycle event loop theorems (C5, C7, C8). -/

/-- C5 counterexample environment: the persisted-predicate store is enabled
but its connection cannot be opened. -/
def cex_c5_env : LifecycleEnv :=
  { http_api_on := true, conn_ok := false, hset_spec_ok := true,
    hset_status_ok := true, del_ok := true, key := fun _ => "k" }

/-- The empty predicate store. -/
def empty_store : PredicateStore := fun _ => none

/-- C5 counterexample: with the store enabled and the connection failing to
open, the `continue` in the `PredicateRegistered` arm skips the chain-scope
match, so a Bitcoin-scoped specification is not enqueued at all (zero
enqueues, not one). -/
theorem registered_bitcoin_enqueue_counterexample :
    enqueued_specs (handle_observer_event cex_c5_env empty_store
      (ObserverEvent.PredicateRegistered
        (ChainhookSpecification.Bitcoin { uuid := "a", enabled := true }))).1 =
      [] := by
  rfl

/-- C5 (amended): a `PredicateRegistered` event for a Bitcoin-scoped
specification enqueues it to the scan dispatcher exactly once whenever the
persisted store is disabled or its connection opens — in particular even when
the store writes themselves fail; when the store is enabled and the
connection cannot be opened, the handler skips the event and nothing is
enqueued.  Stacks-scoped specifications are never enqueued, in any case. -/
theorem registered_bitcoin_enqueue (env : LifecycleEnv)
    (store : PredicateStore) (p : BitcoinChainhookSpecification)
    (h : env.http_api_on = false ∨ env.conn_ok = true) :
    enqueued_specs (handle_observer_event env store
      (ObserverEvent.PredicateRegistered
        (ChainhookSpecification.Bitcoin p))).1 = [p] ∧
    (∀ (env2 : LifecycleEnv) (store2 : PredicateStore)
       (s : StacksChainhookSpecification),
       enqueued_specs (handle_observer_event env2 store2
         (ObserverEvent.PredicateRegistered
           (ChainhookSpecification.Stacks s))).1 = []) := by
  constructor
  · rcases h with h | h
    · simp [handle_observer_event, h, enqueued_specs]
    · cases h2 : env.http_api_on with
      | false => simp [handle_observer_event, h2, enqueued_specs]
      | true => simp [handle_observer_event, h2, h, enqueued_specs]
  · intro env2 store2 s
    cases h2 : env2.http_api_on with
    | false => simp [handle_observer_event, h2, enqueued_specs]
    | true =>
      cases h3 : env2.conn_ok with
      | false => simp [handle_observer_event, h2, h3, enqueued_specs]
      | true => simp [handle_observer_event, h2, h3, enqueued_specs]

/-- C5 witness environment: store enabled, connection opens, both store
writes fail. -/
def wit_c5_env : LifecycleEnv :=
  { http_api_on := true, conn_ok := true, hset_spec_ok := false,
    hset_status_ok := false, del_ok := true, key := fun _ => "k" }

theorem registered_bitcoin_enqueue_witness :
    enqueued_specs (handle_observer_event wit_c5_env empty_store
      (ObserverEvent.PredicateRegistered
        (ChainhookSpecification.Bitcoin { uuid := "a", enabled := true }))).1 =
      [{ uuid := "a", enabled := true }] :=
  (registered_bitcoin_enqueue wit_c5_env empty_store
    { uuid := "a", enabled := true } (Or.inr rfl)).1

/-- The status values of the attempted status writes of a trace, in
order. -/
def status_writes (tr : List LifeEffect) : List PredicateStatus :=
  tr.filterMap fun e =>
    match e with
    | LifeEffect.storeWriteStatus _ st _ => some st
    | _ => none

/-- C7: with the persisted store enabled, its connection open and the writes
succeeding, a `PredicateRegistered` event stores the specification and sets
the stored status to `Disabled`, and a `PredicateEnabled` event stores the
specification and sets the stored status to `InitialScanCompleted`;
moreover, in every environment, the status values written by any lifecycle
event are at most one of `Disabled` or `InitialScanCompleted` — no other
status value is ever written by the event loop. -/
theorem lifecycle_status_writes (env : LifecycleEnv)
    (store : PredicateStore) (spec : ChainhookSpecification)
    (hOn : env.http_api_on = true) (hConn : env.conn_ok = true)
    (hWs : env.hset_spec_ok = true) (hWt : env.hset_status_ok = true) :
    (handle_observer_event env store
        (ObserverEvent.PredicateRegistered spec)).2.1 (env.key spec) =
      some { status := some PredicateStatus.Disabled,
             specification := some spec } ∧
    (handle_observer_event env store
        (ObserverEvent.PredicateEnabled spec)).2.1 (env.key spec) =
      some { status := some PredicateStatus.InitialScanCompleted,
             specification := some spec } ∧
    (∀ (env2 : LifecycleEnv) (store2 : PredicateStore) (ev : ObserverEvent),
       status_writes (handle_observer_event env2 store2 ev).1 = [] ∨
       status_writes (handle_observer_event env2 store2 ev).1 =
         [PredicateStatus.Disabled] ∨
       status_writes (handle_observer_event env2 store2 ev).1 =
         [PredicateStatus.InitialScanCompleted]) := by
  refine ⟨?_, ?_, ?_⟩
  · cases spec <;>
      simp [handle_observer_event, hOn, hConn, hWs, hWt,
        update_predicate_spec, update_predicate_status, hset_specification,
        hset_status]
  · cases spec <;>
      simp [handle_observer_event, hOn, hConn, hWs, hWt,
        update_predicate_spec, update_predicate_status, hset_specification,
        hset_status]
  · intro env2 store2 ev
    cases ev with
    | PredicateRegistered spec2 =>
      cases h2 : env2.http_api_on <;> cases h3 : env2.conn_ok <;>
        cases spec2 <;>
        simp [handle_observer_event, h2, h3, status_writes]
    | PredicateEnabled spec2 =>
      cases h2 : env2.http_api_on <;> cases h3 : env2.conn_ok <;>
        simp [handle_observer_event, h2, h3, status_writes]
    | PredicateDeregistered spec2 =>
      cases h2 : env2.http_api_on <;> cases h3 : env2.conn_ok <;>
        cases h4 : env2.del_ok <;>
        simp [handle_observer_event, h2, h3, h4, status_writes]
    | Terminate => simp [handle_observer_event, status_writes]
    | Other => simp [handle_observer_event, status_writes]

/-- C7 witness environment: store enabled, connection open, writes
succeed. -/
def wit_c7_env : LifecycleEnv :=
  { http_api_on := true, conn_ok := true, hset_spec_ok := true,
    hset_status_ok := true, del_ok := true, key := fun _ => "btc::a" }

theorem lifecycle_status_writes_witness :
    (handle_observer_event wit_c7_env empty_store
        (ObserverEvent.PredicateRegistered
          (ChainhookSpecification.Bitcoin { uuid := "a", enabled := true }))).2.1
        "btc::a" =
      some { status := some PredicateStatus.Disabled,
             specification := some (ChainhookSpecification.Bitcoin
               { uuid := "a", enabled := true }) } ∧
    (handle_observer_event wit_c7_env empty_store
        (ObserverEvent.PredicateEnabled
          (ChainhookSpecification.Bitcoin { uuid := "a", enabled := true }))).2.1
        "btc::a" =
      some { status := some PredicateStatus.InitialScanCompleted,
             specification := some (ChainhookSpecification.Bitcoin
               { uuid := "a", enabled := true }) } :=
  ⟨(lifecycle_status_writes wit_c7_env empty_store
      (ChainhookSpecification.Bitcoin { uuid := "a", enabled := true })
      rfl rfl rfl rfl).1,
   (lifecycle_status_writes wit_c7_env empty_store
      (ChainhookSpecification.Bitcoin { uuid := "a", enabled := true })
      rfl rfl rfl rfl).2.1⟩

/-- C8: with the persisted store enabled and its connection open, a
`PredicateDeregistered` event deletes the record at the predicate's key when
the delete succeeds — a subsequent `retrieve_predicate_status` for that key
returns `none` — while a delete error leaves the store untouched; in both
cases exactly one delete is attempted (no retry) and the event loop keeps
running. -/
theorem deregistered_deletes_record (env : LifecycleEnv)
    (store : PredicateStore) (spec : ChainhookSpecification)
    (hOn : env.http_api_on = true) (hConn : env.conn_ok = true) :
    (env.del_ok = true →
      (handle_observer_event env store
          (ObserverEvent.PredicateDeregistered spec)).2.1 (env.key spec) =
        none ∧
      retrieve_predicate_status (env.key spec)
        (handle_observer_event env store
          (ObserverEvent.PredicateDeregistered spec)).2.1 = none) ∧
    (env.del_ok = false →
      (handle_observer_event env store
          (ObserverEvent.PredicateDeregistered spec)).2.1 = store) ∧
    count_deletes (handle_observer_event env store
      (ObserverEvent.PredicateDeregistered spec)).1 = 1 ∧
    (handle_observer_event env store
      (ObserverEvent.PredicateDeregistered spec)).2.2 = true := by
  refine ⟨?_, ?_, ?_, ?_⟩
  · intro hdel
    constructor
    · simp [handle_observer_event, hOn, hConn, hdel, del_key]
    · simp [handle_observer_event, hOn, hConn, hdel, del_key,
        retrieve_predicate_status]
  · intro hdel
    simp [handle_observer_event, hOn, hConn, hdel]
  · cases hdel : env.del_ok <;>
      simp [handle_observer_event, hOn, hConn, hdel, count_deletes]
  · cases hdel : env.del_ok <;>
      simp [handle_observer_event, hOn, hConn, hdel]

/-- C8 witness environment and store: delete succeeds; the store initially
holds a record for the key. -/
def wit_c8_env : LifecycleEnv :=
  { http_api_on := true, conn_ok := true, hset_spec_ok := true,
    hset_status_ok := true, del_ok := true, key := fun _ => "btc::a" }

def wit_c8_store : PredicateStore := fun k =>
  if k = "btc::a" then
    some { status := some PredicateStatus.Disabled,
           specification := some (ChainhookSpecification.Bitcoin
             { uuid := "a", enabled := true }) }
  else none

theorem deregistered_deletes_record_witness :
    retrieve_predicate_status "btc::a"
      (handle_observer_event wit_c8_env wit_c8_store
        (ObserverEvent.PredicateDeregistered
          (ChainhookSpecification.Bitcoin
            { uuid := "a", enabled := true }))).2.1 = none ∧
    count_deletes (handle_observer_event wit_c8_env wit_c8_store
      (ObserverEvent.PredicateDeregistered
        (ChainhookSpecification.Bitcoin
          { uuid := "a", enabled := true }))).1 = 1 :=
  ⟨((deregistered_deletes_record wit_c8_env wit_c8_store
      (ChainhookSpecification.Bitcoin { uuid := "a", enabled := true })
      rfl rfl).1 rfl).2,
   (deregistered_deletes_record wit_c8_env wit_c8_store
      (ChainhookSpecification.Bitcoin { uuid := "a", enabled := true })
      rfl rfl).2.2.1⟩

/-!  Consolidation and config theorems (C9, C10). -/

/-- The registration outcome of one launch-supplied specification against a
network pair, as an optional registered specification. -/
def register_result (env : ConsolidateEnv)
    (pair : BitcoinNetwork × StacksNetwork)
    (predicate : ChainhookFullSpecification) : Option ChainhookSpecification :=
  match env.register_full_specification pair predicate with
  | Except.ok spec => some spec
  | Except.error _ => none

theorem foldl_register_full (env : ConsolidateEnv)
    (pair : BitcoinNetwork × StacksNetwork)
    (preds : List ChainhookFullSpecification) :
    ∀ acc : List ChainhookSpecification,
      preds.foldl
        (fun acc2 predicate =>
          match env.register_full_specification pair predicate with
          | Except.ok spec => acc2 ++ [spec]
          | Except.error _ => acc2) acc =
      acc ++ preds.filterMap (register_result env pair) := by
  induction preds with
  | nil => intro acc; simp
  | cons p rest ih =>
    intro acc
    cases h : env.register_full_specification pair p with
    | ok spec =>
      simp only [List.foldl_cons, List.filterMap_cons, register_result, h]
      rw [ih]
      simp
    | error e =>
      simp only [List.foldl_cons, List.filterMap_cons, register_result, h]
      rw [ih]

/-- C9: the consolidation consults the persisted store exactly when the
launch-supplied list is empty and the HTTP API is enabled; a load failure is
treated as zero persisted predicates (the result is the one obtained from an
empty persisted list — never an error); and the resulting registry is the
persisted part followed by one entry per launch-supplied specification whose
registration against the configured (bitcoin network, stacks network) pair
succeeded — a failed registration is dropped; the persisted part is empty
whenever the store was not consulted. -/
theorem consolidate_chainhook_config_spec (env : ConsolidateEnv)
    (predicates : List ChainhookFullSpecification) (config : Config) :
    (create_and_consolidate_chainhook_config_with_predicates env predicates
        config).2 = (predicates.isEmpty && config.is_http_api_enabled) ∧
    (∀ e, env.load_predicates_from_redis = Except.error e →
      create_and_consolidate_chainhook_config_with_predicates env predicates
          config =
        create_and_consolidate_chainhook_config_with_predicates
          { env with load_predicates_from_redis := Except.ok [] } predicates
          config) ∧
    (∃ reg0,
      (create_and_consolidate_chainhook_config_with_predicates env predicates
          config).1 =
        reg0 ++ predicates.filterMap
          (register_result env
            (config.network.bitcoin_network, config.network.stacks_network)) ∧
      ((predicates.isEmpty && config.is_http_api_enabled) = false →
        reg0 = [])) := by
  refine ⟨?_, ?_, ?_⟩
  · cases h : predicates.isEmpty && config.is_http_api_enabled <;>
      simp [create_and_consolidate_chainhook_config_with_predicates, h]
  · intro e he
    cases h : predicates.isEmpty && config.is_http_api_enabled <;>
      simp [create_and_consolidate_chainhook_config_with_predicates, h, he]
  · cases h : predicates.isEmpty && config.is_http_api_enabled with
    | false =>
      refine ⟨[], ?_, fun _ => rfl⟩
      simp only [create_and_consolidate_chainhook_config_with_predicates, h,
        Bool.false_eq_true, if_false]
      rw [foldl_register_full]
    | true =>
      refine ⟨(match env.load_predicates_from_redis with
        | Except.ok ps => ps
        | Except.error _ => []).foldl
          (fun (acc : List ChainhookSpecification)
               (ps : ChainhookSpecification × PredicateStatus) =>
            match env.register_specification ps.1 with
            | Except.ok _ => acc ++ [ps.1]
            | Except.error _ => acc) [], ?_, ?_⟩
      · simp only [create_and_consolidate_chainhook_config_with_predicates, h,
          if_true]
        rw [foldl_register_full]
      · intro hcontra
        simp at hcontra

/-- C9 witness: two launch-supplied specifications, one registering
successfully and one rejected; HTTP API disabled. -/
def wit_c9_env : ConsolidateEnv :=
  { load_predicates_from_redis := Except.ok [],
    register_specification := fun _ => Except.ok (),
    register_full_specification := fun _ p =>
      if p.uuid = "u1" then
        Except.ok (ChainhookSpecification.Bitcoin
          { uuid := "u1", enabled := true })
      else Except.error "bad network" }

def wit_c9_config : Config :=
  { storage := { working_dir := "ordhook" },
    http_api := PredicatesApi.Off,
    limits := { max_number_of_bitcoin_predicates := 50,
                max_number_of_concurrent_bitcoin_scans := 10,
                max_number_of_stacks_predicates := 50,
                max_number_of_concurrent_stacks_scans := 10,
                max_number_of_processing_threads := 3,
                bitcoin_concurrent_http_requests_max := 3,
                max_caching_memory_size_mb := 2048 },
    network := { bitcoind_rpc_url := "http://0.0.0.0:18443",
                 bitcoind_rpc_username := "devnet",
                 bitcoind_rpc_password := "devnet",
                 bitcoin_block_signaling :=
                   BitcoinBlockSignaling.Stacks { ingestion_port := 20455 },
                 stacks_network := StacksNetwork.Devnet,
                 bitcoin_network := BitcoinNetwork.Regtest },
    bootstrap := BootstrapConfig.Build,
    logs := { ordinals_internals := true, chainhook_internals := false } }

theorem consolidate_chainhook_config_spec_witness :
    (create_and_consolidate_chainhook_config_with_predicates wit_c9_env
        [{ uuid := "u1" }, { uuid := "u2" }] wit_c9_config).2 = false ∧
    (create_and_consolidate_chainhook_config_with_predicates wit_c9_env
        [{ uuid := "u1" }, { uuid := "u2" }] wit_c9_config).1 =
      [ChainhookSpecification.Bitcoin { uuid := "u1", enabled := true }] := by
  have H := consolidate_chainhook_config_spec wit_c9_env
    [{ uuid := "u1" }, { uuid := "u2" }] wit_c9_config
  refine ⟨?_, ?_⟩
  · rw [H.1]
    rfl
  · obtain ⟨reg0, heq, hnil⟩ := H.2.2
    rw [heq, hnil rfl]
    rfl

/-- C10: a parsed config file yields `PredicatesApi::Off` exactly when the
`http_api` section is absent or its `disabled` field is explicitly `false`;
when the section is present with `disabled` absent or `true`, the result is
`PredicatesApi::On` with `http_port` defaulting to 20456 and `database_uri`
defaulting to `redis://localhost:6379/` when unset. -/
theorem from_config_file_http_api (num_cpus : Nat) (cf : ConfigFile)
    (cfg : Config) (h : Config.from_config_file num_cpus cf = Except.ok cfg) :
    (cfg.http_api = PredicatesApi.Off ↔
      (cf.http_api = none ∨
        ∃ ha, cf.http_api = some ha ∧ ha.disabled = some false)) ∧
    (∀ ha, cf.http_api = some ha → ha.disabled ≠ some false →
      cfg.http_api = PredicatesApi.On
        { http_port := ha.http_port.getD 20456,
          database_uri := ha.database_uri.getD "redis://localhost:6379/",
          display_logs := ha.display_logs.getD true }) := by
  cases hm : mode_networks cf.network.mode with
  | none =>
    rw [Config.from_config_file, hm] at h
    cases h
  | some nets =>
    obtain ⟨sn, bn⟩ := nets
    rw [Config.from_config_file, hm] at h
    simp only [Except.ok.injEq] at h
    subst h
    cases hha : cf.http_api with
    | none =>
      refine ⟨?_, ?_⟩
      · simp [hha]
      · intro ha hha2 _
        cases hha2
    | some ha0 =>
      cases hd : ha0.disabled with
      | none =>
        refine ⟨?_, ?_⟩
        · simp [hha, hd, DEFAULT_CONTROL_PORT, DEFAULT_REDIS_URI]
        · intro ha hha2 _
          injection hha2 with hv2
          subst hv2
          simp [hha, hd, DEFAULT_CONTROL_PORT, DEFAULT_REDIS_URI]
      | some b =>
        cases b with
        | false =>
          refine ⟨?_, ?_⟩
          · simp [hha, hd]
          · intro ha hha2 hd2
            injection hha2 with hv2
            subst hv2
            exact absurd hd hd2
        | true =>
          refine ⟨?_, ?_⟩
          · simp [hha, hd, DEFAULT_CONTROL_PORT, DEFAULT_REDIS_URI]
          · intro ha hha2 _
            injection hha2 with hv2
            subst hv2
            simp [hha, hd, DEFAULT_CONTROL_PORT, DEFAULT_REDIS_URI]

/-- C10 witness: a devnet config file whose `http_api` section is present
with every field unset. -/
def wit_c10_file : ConfigFile :=
  { storage := { working_dir := none },
    http_api := some { http_port := none, database_uri := none,
                       display_logs := none, disabled := none },
    limits := { max_number_of_bitcoin_predicates := none,
                max_number_of_concurrent_bitcoin_scans := none,
                max_number_of_stacks_predicates := none,
                max_number_of_concurrent_stacks_scans := none,
                max_number_of_processing_threads := none,
                bitcoin_concurrent_http_requests_max := none,
                max_caching_memory_size_mb := none },
    network := { mode := "devnet", bitcoind_rpc_url := "http://0.0.0.0:18443",
                 bitcoind_rpc_username := "devnet",
                 bitcoind_rpc_password := "devnet",
                 bitcoind_zmq_url := none,
                 stacks_events_ingestion_port := none },
    bootstrap := none,
    logs := none }

/-- The configuration produced from `wit_c10_file` with 4 CPUs. -/
def wit_c10_config : Config :=
  { storage := { working_dir := "ordhook" },
    http_api := PredicatesApi.On { http_port := 20456,
                                   database_uri := "redis://localhost:6379/",
                                   display_logs := true },
    limits := { max_number_of_bitcoin_predicates := 50,
                max_number_of_concurrent_bitcoin_scans := 10,
                max_number_of_stacks_predicates := 50,
                max_number_of_concurrent_stacks_scans := 10,
                max_number_of_processing_threads := 3,
                bitcoin_concurrent_http_requests_max := 3,
                max_caching_memory_size_mb := 2048 },
    network := { bitcoind_rpc_url := "http://0.0.0.0:18443",
                 bitcoind_rpc_username := "devnet",
                 bitcoind_rpc_password := "devnet",
                 bitcoin_block_signaling :=
                   BitcoinBlockSignaling.Stacks { ingestion_port := 20455 },
                 stacks_network := StacksNetwork.Devnet,
                 bitcoin_network := BitcoinNetwork.Regtest },
    bootstrap := BootstrapConfig.Build,
    logs := { ordinals_internals := true, chainhook_internals := true } }

theorem from_config_file_http_api_witness :
    Config.from_config_file 4 wit_c10_file = Except.ok wit_c10_config ∧
    wit_c10_config.http_api = PredicatesApi.On
      { http_port := 20456, database_uri := "redis://localhost:6379/",
        display_logs := true } :=
  ⟨by rfl,
   (from_config_file_http_api 4 wit_c10_file wit_c10_config (by rfl)).2
     { http_port := none, database_uri := none, display_logs := none,
       disabled := none } rfl (by simp)⟩
